import Mathlib

/-!
Verification of the order-execution engine of `apeming/maoyandao-py`.

The definitions below are a shallow embedding of the Python sources:

* `app/core/order_service.py` — order construction (`_process_token_amount`,
  `create_order`, `create_market_order`, `create_limit_order`,
  `create_sell_order`), EIP-712 signing (`sign_order`, `TYPES`, `DOMAIN`),
  the session lifecycle (`login`, `is_authenticated`) and the order
  placement entry points (`place_market_order`, `place_limit_order`,
  `place_sell_order`);
* `app/services/order_service_wrapper.py` — the cached service registry
  (`_get_or_create_service`);
* `app/core/request_strategies/proxy_manager.py` — the proxy pool
  (`_load_proxies`, `get_random_proxy`).

Python floats are modelled exactly as IEEE-754 binary64 over the naturals
(round to nearest, ties to even); machine-level network and file-system
effects are passed in as explicit oracle arguments.
-/

set_option maxRecDepth 40000

/-- Python truthiness of an optional string value: `None` and `""` are falsy. -/
def pyTruthyStr : Option String → Bool
  | none => false
  | some s => !s.data.isEmpty

/-- Python `str.strip()` (ASCII whitespace), written over the character list
    so that the kernel can evaluate it. -/
def pyStrip (s : String) : String :=
  ⟨((s.data.dropWhile Char.isWhitespace).reverse.dropWhile Char.isWhitespace).reverse⟩

/-- Python `str.startswith`, written over the character lists so that the
    kernel can evaluate it. -/
def pyStartsWith (s pre : String) : Bool :=
  pre.data.isPrefixOf s.data

/-- Value of a list of ASCII digits, most significant digit first. -/
def digitsVal (cs : List Char) : Nat :=
  cs.foldl (fun acc c => acc * 10 + (c.toNat - 48)) 0

/-- Python `int(s)` on a decimal string: optional sign followed by digits. -/
def pyInt (s : String) : Option Int :=
  let cs := s.toList
  let sr : Bool × List Char :=
    match cs with
    | '-' :: rest => (true, rest)
    | '+' :: rest => (false, rest)
    | _ => (false, cs)
  if sr.2.isEmpty || !sr.2.all Char.isDigit then none
  else if sr.1 then some (-(digitsVal sr.2 : Int)) else some (digitsVal sr.2 : Int)

/-- Exponent suffix of a decimal literal: value scale for `e`/`E` notation.
    Given the digits value `n0` and fraction length `f` of the mantissa,
    returns the exact value `(neg, n, d)` after applying the exponent. -/
def applyDecimalExp (neg : Bool) (n0 f : Nat) (rest : List Char) :
    Option (Bool × Nat × Nat) :=
  let sr : Bool × List Char :=
    match rest with
    | '-' :: r => (true, r)
    | '+' :: r => (false, r)
    | _ => (false, rest)
  if sr.2.isEmpty || !sr.2.all Char.isDigit then none
  else
    let x := digitsVal sr.2
    if sr.1 then some (neg, n0, 10 ^ (f + x))
    else if f ≤ x then some (neg, n0 * 10 ^ (x - f), 1)
    else some (neg, n0, 10 ^ (f - x))

/-- Python `float(s)`, step 1: the exact rational value of a finite decimal
    literal, as `(neg, n, d)` with value `(-1)^neg * n / d` and `d` a power of
    ten.  Optional sign, fractional part and exponent are covered; `inf`,
    `nan`, underscore separators and surrounding whitespace lie outside the
    model. -/
def parseDecimal (s : String) : Option (Bool × Nat × Nat) :=
  let cs := s.toList
  let sr : Bool × List Char :=
    match cs with
    | '-' :: rest => (true, rest)
    | '+' :: rest => (false, rest)
    | _ => (false, cs)
  let neg := sr.1
  let intDs := sr.2.takeWhile Char.isDigit
  let afterInt := sr.2.dropWhile Char.isDigit
  let fracSplit : List Char × List Char :=
    match afterInt with
    | '.' :: rest => (rest.takeWhile Char.isDigit, rest.dropWhile Char.isDigit)
    | _ => ([], afterInt)
  if intDs.isEmpty && fracSplit.1.isEmpty then none
  else
    let n0 := digitsVal (intDs ++ fracSplit.1)
    let f := fracSplit.1.length
    match fracSplit.2 with
    | [] => some (neg, n0, 10 ^ f)
    | 'e' :: rest => applyDecimalExp neg n0 f rest
    | 'E' :: rest => applyDecimalExp neg n0 f rest
    | _ => none

/-- Bit length of a natural, by explicit fuel so that the kernel can evaluate
    it; correct for inputs below `2 ^ 300`, far beyond every quantity this
    development evaluates. -/
def bitLenAux : Nat → Nat → Nat
  | 0, _ => 0
  | fuel + 1, x => if x = 0 then 0 else bitLenAux fuel (x / 2) + 1

/-- Bit length of a natural number (`0` for `0`). -/
def bitLen (x : Nat) : Nat := bitLenAux 300 x

/-- Floor of `log₂ (n / d)` for positive `n`, `d`. -/
def ratFloorLog2 (n d : Nat) : Int :=
  let l : Int := (bitLen n : Int) - (bitLen d : Int)
  if 0 ≤ l then (if d * 2 ^ l.toNat ≤ n then l else l - 1)
  else (if d ≤ n * 2 ^ (-l).toNat then l else l - 1)

/-- IEEE-754 binary64 rounding (round to nearest, ties to even) of the
    nonnegative rational `n / d`: returns `(m, e)` representing the value
    `m * 2 ^ e` with `2 ^ 52 ≤ m ≤ 2 ^ 53` (and `(0, 0)` for zero).  Overflow
    to infinity and subnormal underflow lie outside the modelled range. -/
def roundFloat (n d : Nat) : Nat × Int :=
  if n = 0 then (0, 0)
  else
    let e : Int := ratFloorLog2 n d - 52
    let scaled : Nat × Nat :=
      if 0 ≤ e then (n, d * 2 ^ e.toNat) else (n * 2 ^ (-e).toNat, d)
    let m0 := scaled.1 / scaled.2
    let r := scaled.1 % scaled.2
    let m :=
      if scaled.2 < 2 * r then m0 + 1
      else if 2 * r < scaled.2 then m0
      else if m0 % 2 = 0 then m0 else m0 + 1
    (m, e)

/-- Is the binary64 value `m * 2 ^ e` strictly greater than the natural `k`?
    (Exact integer comparison of the exact values.) -/
def floatGtNat (m : Nat) (e : Int) (k : Nat) : Bool :=
  if 0 ≤ e then k < m * 2 ^ e.toNat else k * 2 ^ (-e).toNat < m

/-- Binary64 product `(m * 2 ^ e) * 10 ^ 18`: the IEEE multiply forms the
    exact product and rounds it once (`10 ^ 18` is itself exactly
    representable). -/
def roundMulWei (m : Nat) (e : Int) : Nat × Int :=
  if 0 ≤ e then roundFloat (m * 10 ^ 18 * 2 ^ e.toNat) 1
  else roundFloat (m * 10 ^ 18) (2 ^ (-e).toNat)

/-- Python `int(x)` on the nonnegative binary64 value `m * 2 ^ e`:
    truncation toward zero. -/
def floatTrunc (m : Nat) (e : Int) : Nat :=
  if 0 ≤ e then m * 2 ^ e.toNat else m / 2 ^ (-e).toNat

/-- Embedding of `OrderService._process_token_amount`: `float` conversion of the quantity,
    the negativity guard, the `1_000_000_000` magnitude guard, scaling by
    `10 ^ 18` in binary64 arithmetic, truncation by `int`, and `str`. -/
def _process_token_amount (token_amount : String) : Except String String :=
  match parseDecimal token_amount with
  | none => .error ("无效的代币数量: " ++ token_amount)
  | some (neg, n, d) =>
    if neg && n != 0 then .error "代币数量不能为负数"
    else
      let md := roundFloat n d
      if floatGtNat md.1 md.2 1000000000 then
        .error "代币数量过大，可能单位错误。最大支持数量: 1000000000"
      else
        let w := roundMulWei md.1 md.2
        .ok (toString (floatTrunc w.1 w.2))

/-- The processed amount as the specification states it (§8, claim C4):
    `⌊amount * 10 ^ 18⌋` where `amount` is the exact rational value of the
    quantity string.  Stated for comparison with `_process_token_amount`. -/
def specFloorWei (s : String) : Option Nat :=
  match parseDecimal s with
  | some (false, n, d) => some (n * 10 ^ 18 / d)
  | some (true, 0, _) => some 0
  | _ => none

/-- Result of `OrderService.get_timestamp`: epoch milliseconds, epoch seconds
    and the second timestamp `n` days later. -/
structure TimestampInfo where
  ms : Int
  sec : Int
  afterDaysSec : Int
  deriving DecidableEq

/-- Embedding of `OrderService.get_timestamp` with the two `time.time()` samples passed in
    explicitly. -/
def get_timestamp (nowMs nowSec : Int) (n : Int) : TimestampInfo :=
  { ms := nowMs, sec := nowSec, afterDaysSec := nowSec + n * 86400 }

/-- The parameter dictionary accepted by `create_order`: `token_amount`
    carries `str(params['token_amount'])` when the key is present, `amount`
    the human-readable quantity literal. -/
structure OrderParams where
  token_amount : Option String
  amount : Option String
  nft_token_id : String
  deriving DecidableEq

/-- The order dictionary returned by `create_order` (all values strings,
    except the boolean `isSeller` and the verbatim `nftTokenId`). -/
structure Order where
  isSeller : Bool
  maker : String
  listingTime : String
  expirationTime : String
  tokenAddress : String
  tokenAmount : String
  nftAddress : String
  nftTokenId : String
  salt : String
  deriving DecidableEq

/-- Embedded token contract address constant. -/
def TOKEN_ADDRESS : String := "0x07E49Ad54FcD23F6e7B911C2068F0148d1827c08"

/-- Embedded NFT collection address constant. -/
def NFT_ADDRESS : String := "0x43DCff2A0cedcd5e10e6f1c18b503498dDCe60d5"

/-- Embedding of `OrderService.create_order`: prefers `token_amount` verbatim, otherwise
    converts `amount` via `_process_token_amount`, otherwise raises
    `ValueError`; fills the timestamp fields from `get_timestamp`. -/
def create_order (walletAddress : String) (nowMs nowSec : Int)
    (params : OrderParams) (is_seller : Bool) (expire_days : Int) :
    Except String Order :=
  let pta : Except String String :=
    match params.token_amount with
    | some ta => .ok ta
    | none =>
      match params.amount with
      | some am => _process_token_amount am
      | none => .error "必须提供 amount 或 token_amount 参数"
  match pta with
  | .error e => .error e
  | .ok processedTokenAmount =>
    let ti := get_timestamp nowMs nowSec expire_days
    .ok { isSeller := is_seller
          maker := walletAddress
          listingTime := toString ti.sec
          expirationTime := toString ti.afterDaysSec
          tokenAddress := TOKEN_ADDRESS
          tokenAmount := processedTokenAmount
          nftAddress := NFT_ADDRESS
          nftTokenId := params.nft_token_id
          salt := toString ti.ms }

/-- Embedding of `OrderService.create_market_order`. -/
def create_market_order (w : String) (nowMs nowSec : Int) (p : OrderParams) :
    Except String Order :=
  create_order w nowMs nowSec p false 3

/-- Embedding of `OrderService.create_limit_order`. -/
def create_limit_order (w : String) (nowMs nowSec : Int) (p : OrderParams) :
    Except String Order :=
  create_order w nowMs nowSec p false 3

/-- Embedding of `OrderService.create_sell_order`. -/
def create_sell_order (w : String) (nowMs nowSec : Int) (p : OrderParams) :
    Except String Order :=
  create_order w nowMs nowSec p true 14

/-- Python `str.lower()` (ASCII range), written over the character list so
    that the kernel can evaluate it. -/
def String.pyLower (s : String) : String :=
  ⟨s.data.map Char.toLower⟩

/-- A typed-data field value as assembled by `sign_order`: the dictionary mixes
    Python ints and strings. -/
inductive FieldVal where
  | int (n : Int)
  | str (s : String)
  deriving DecidableEq

/-- Embedding of `OrderService.DOMAIN`: the constant EIP-712 signing domain. -/
def DOMAIN : List (String × FieldVal) :=
  [("name", .str "Marketplace"), ("version", .str "1.0"),
   ("chainId", .int 68414),
   ("verifyingContract", .str "0xf1c82c082af3de3614771105f01dc419c3163352")]

/-- Embedding of `OrderService.TYPES['EIP712Domain']`. -/
def TYPES_EIP712Domain : List (String × String) :=
  [("name", "string"), ("version", "string"), ("chainId", "uint256"),
   ("verifyingContract", "address")]

/-- Embedding of `OrderService.TYPES['Order']`: the nine order fields, in schema order. -/
def TYPES_Order : List (String × String) :=
  [("isSeller", "uint256"), ("maker", "address"), ("listingTime", "uint256"),
   ("expirationTime", "uint256"), ("tokenAddress", "address"),
   ("tokenAmount", "uint256"), ("nftAddress", "address"),
   ("nftTokenId", "uint256"), ("salt", "uint256")]

/-- The `order_for_signing` dictionary built inside `sign_order`
    (order_service.py lines 245-255): `isSeller` is replaced by the literal
    `0`, the three addresses are lower-cased, `listingTime`, `expirationTime`
    and `salt` go through `int(...)`, `tokenAmount` is passed through
    verbatim and `nftTokenId` is lower-cased.  `none` when one of the
    `int(...)` conversions raises. -/
def order_for_signing (o : Order) : Option (List (String × FieldVal)) :=
  match pyInt o.listingTime, pyInt o.expirationTime, pyInt o.salt with
  | some lt, some et, some slt =>
    some [("isSeller", .int 0),
          ("maker", .str o.maker.pyLower),
          ("listingTime", .int lt),
          ("expirationTime", .int et),
          ("tokenAddress", .str o.tokenAddress.pyLower),
          ("tokenAmount", .str o.tokenAmount),
          ("nftAddress", .str o.nftAddress.pyLower),
          ("nftTokenId", .str o.nftTokenId.pyLower),
          ("salt", .int slt)]
  | _, _, _ => none

/-- The normalization as the specification states it (§4.2, claim C3):
    addresses lower-cased and EVERY numeric field — `listingTime`,
    `expirationTime`, `tokenAmount`, `nftTokenId`, `salt` — parsed to an
    integer.  Stated for comparison with `order_for_signing`. -/
def order_for_signing_spec (o : Order) : Option (List (String × FieldVal)) :=
  match pyInt o.listingTime, pyInt o.expirationTime, pyInt o.salt,
        pyInt o.tokenAmount, pyInt o.nftTokenId with
  | some lt, some et, some slt, some ta, some ni =>
    some [("isSeller", .int 0),
          ("maker", .str o.maker.pyLower),
          ("listingTime", .int lt),
          ("expirationTime", .int et),
          ("tokenAddress", .str o.tokenAddress.pyLower),
          ("tokenAmount", .int ta),
          ("nftAddress", .str o.nftAddress.pyLower),
          ("nftTokenId", .int ni),
          ("salt", .int slt)]
  | _, _, _, _, _ => none

/-- The `full_message` dictionary passed to `encode_typed_data`. -/
structure TypedMessage where
  types : List (String × List (String × String))
  primaryType : String
  domain : List (String × FieldVal)
  message : List (String × FieldVal)

/-- A signing credential: `eth_account`'s deterministic encode-and-sign
    operation (`encode_typed_data` followed by `Account.sign_message` and hex
    rendering of the signature bytes), abstracted as a function of the full
    typed message. -/
structure Credential where
  signTyped : TypedMessage → String

/-- The full EIP-712 message assembled by `sign_order`. -/
def full_message (o : Order) : Option TypedMessage :=
  (order_for_signing o).map (fun m =>
    { types := [("EIP712Domain", TYPES_EIP712Domain), ("Order", TYPES_Order)]
      primaryType := "Order"
      domain := DOMAIN
      message := m })

/-- Embedding of `OrderService.sign_order`: normalize, encode under the fixed schema, sign
    with the credential, prefix `0x`.  `none` when an `int(...)` conversion
    raises. -/
def sign_order (cred : Credential) (o : Order) : Option String :=
  (full_message o).map (fun fm => "0x" ++ cred.signTyped fm)

/-- The `auth_tokens` instance dictionary. -/
structure AuthTokens where
  wat : Option String
  wrt : Option String
  watExpireAt : Option Int
  wrtExpireAt : Option Int
  deriving DecidableEq

/-- The constructor's initial token state: everything `None`. -/
def initialAuthTokens : AuthTokens :=
  { wat := none, wrt := none, watExpireAt := none, wrtExpireAt := none }

/-- Embedding of `OrderService.is_authenticated`: `bool(wat and wrt)` — Python truthiness
    of both tokens. -/
def is_authenticated (t : AuthTokens) : Bool :=
  pyTruthyStr t.wat && pyTruthyStr t.wrt

/-- What parsing the signin response body yields: either the parse raises
    (`json.loads` failure, or a body without `.get`), or it produces the four
    optional token fields. -/
inductive LoginParse where
  | fails
  | fields (wat wrt : Option String) (watExpireAt wrtExpireAt : Option Int)
  deriving DecidableEq

/-- The normalized response of the signin POST, reduced to what `login`
    inspects. -/
structure SigninResponse where
  parse : LoginParse
  deriving DecidableEq

/-- Embedding of `OrderService.login`: fetches the challenge message (`get_login_message`
    re-raises network failures), signs it, POSTs the signature (network
    failures are logged and re-raised), then tries to extract the token pair
    from the response.  The inner `try/except` swallows parse failures, and a
    response without a truthy `wat`/`wrt` pair is merely logged: in both
    cases the raw response is returned normally and the tokens are left
    unchanged.  (The cookie-jar push that accompanies a successful token
    extraction is not modelled; no claim concerns it.) -/
def login (st : AuthTokens) (messageNet : Except String String)
    (signinNet : Except String SigninResponse) :
    Except String (SigninResponse × AuthTokens) :=
  match messageNet with
  | .error e => .error e
  | .ok _msg =>
    match signinNet with
    | .error e => .error e
    | .ok resp =>
      match resp.parse with
      | .fails => .ok (resp, st)
      | .fields wat wrt we re =>
        if pyTruthyStr wat && pyTruthyStr wrt then
          .ok (resp, { wat := wat, wrt := wrt, watExpireAt := we, wrtExpireAt := re })
        else .ok (resp, st)

/-- Errors raised by the order placement entry points. -/
inductive PyErr where
  | securityCheckFailed
  | authenticationRequired
  | raised (msg : String)
  deriving DecidableEq

/-- A normalized transport response (reduced to what the claims inspect). -/
structure Response where
  status : Nat
  body : String
  deriving DecidableEq

/-- Observable effects of an order placement call. -/
inductive Effect where
  | cooldownWait (deadlineMs : Int)
  | launchAttempt (staggerMs : Nat)
  | networkCall (url : String)
  deriving DecidableEq

/-- Decidable equality for `Except`, used to evaluate the witnesses. -/
instance {α β : Type} [DecidableEq α] [DecidableEq β] : DecidableEq (Except α β) :=
  fun x y =>
    match x, y with
    | .error a, .error b =>
      if h : a = b then isTrue (h ▸ rfl)
      else isFalse (fun hc => h (Except.error.inj hc))
    | .ok a, .ok b =>
      if h : a = b then isTrue (h ▸ rfl)
      else isFalse (fun hc => h (Except.ok.inj hc))
    | .error _, .ok _ => isFalse (fun hc => Except.noConfusion hc)
    | .ok _, .error _ => isFalse (fun hc => Except.noConfusion hc)

/-- One of the `concurrent_tasks` purchase coroutines of
    `place_market_order`, reduced to its race-relevant observables:
    `terminalTime` is the instant the task completes — the stagger delay plus
    the network round trip, plus the fixed 5-second cooldown that a failing
    task sleeps before re-raising — and `outcome` is the task's result
    (`error` for a raised exception, e.g. the "purchase blocked" body). -/
structure RaceAttempt where
  terminalTime : Nat
  outcome : Except String Response
  deriving DecidableEq

/-- Does attempt `a` complete no later than every attempt of `ts`? -/
def isMinIn (a : RaceAttempt) (ts : List RaceAttempt) : Bool :=
  ts.all (fun b => a.terminalTime ≤ b.terminalTime)

/-- Embedding of `asyncio.wait(tasks, return_when=FIRST_COMPLETED)`: the `(done, pending)`
    split at the first completion instant. -/
def waitFirstCompleted (ts : List RaceAttempt) :
    List RaceAttempt × List RaceAttempt :=
  (ts.filter (fun a => isMinIn a ts), ts.filter (fun a => !isMinIn a ts))

/-- Lift a task outcome to the coordinator's result: a task exception is
    re-raised by `await list(done)[0]`. -/
def liftOutcome : Except String Response → Except PyErr Response
  | .ok r => .ok r
  | .error m => .error (.raised m)

/-- The observable run of one `place_market_order` call. -/
structure MarketRun where
  result : Except PyErr Response
  trace : List Effect
  cancelled : List RaceAttempt
  deriving DecidableEq

/-- Embedding of `OrderService.place_market_order`: the security-check guard, the
    authentication guard, the busy-wait until `created_at_ts * 1000 + 30000`,
    the launch of one staggered task per attempt (attempt `i` delayed
    `i * 10` ms), the `FIRST_COMPLETED` wait, cancellation of the pending
    tasks, and the return (or re-raise) of the first completed task's
    outcome.  The `attempts` oracle gives each launched task's completion
    instant and outcome. -/
def place_market_order (confirm_real_order : Bool) (tokens : AuthTokens)
    (created_at_ts : Int) (attempts : List RaceAttempt) : MarketRun :=
  if !confirm_real_order then
    { result := .error .securityCheckFailed, trace := [], cancelled := [] }
  else if !is_authenticated tokens then
    { result := .error .authenticationRequired, trace := [], cancelled := [] }
  else
    { result :=
        match ((waitFirstCompleted attempts).1).head? with
        | none => .error (.raised "ValueError: Set of Tasks or Futures is empty")
        | some a => liftOutcome a.outcome
      trace := Effect.cooldownWait (created_at_ts * 1000 + 30000) ::
        (List.range attempts.length).map (fun i => Effect.launchAttempt (i * 10))
      cancelled := (waitFirstCompleted attempts).2 }

/-- Embedding of `OrderService.place_limit_order`: the same two guards, then build and
    sign the order, then a single POST to the `/offer` endpoint whose
    response (or exception) is returned (re-raised) as is. -/
def place_limit_order (confirm_real_order : Bool) (tokens : AuthTokens)
    (cred : Credential) (walletAddress : String) (nowMs nowSec : Int)
    (params : OrderParams) (net : Except String Response) :
    Except PyErr Response × List Effect :=
  if !confirm_real_order then (.error .securityCheckFailed, [])
  else if !is_authenticated tokens then (.error .authenticationRequired, [])
  else
    match create_limit_order walletAddress nowMs nowSec params with
    | .error e => (.error (.raised e), [])
    | .ok o =>
      match sign_order cred o with
      | none => (.error (.raised "ValueError: int() conversion failed"), [])
      | some _sig =>
        let url := "https://msu.io/marketplace/api/marketplace/items/" ++
          params.nft_token_id ++ "/offer"
        match net with
        | .ok r => (.ok r, [Effect.networkCall url])
        | .error e => (.error (.raised e), [Effect.networkCall url])

/-- Embedding of `OrderService.place_sell_order`: identical guards, sell-side build
    (`is_seller = True`, 14-day expiry), single POST to `/register`. -/
def place_sell_order (confirm_real_order : Bool) (tokens : AuthTokens)
    (cred : Credential) (walletAddress : String) (nowMs nowSec : Int)
    (params : OrderParams) (net : Except String Response) :
    Except PyErr Response × List Effect :=
  if !confirm_real_order then (.error .securityCheckFailed, [])
  else if !is_authenticated tokens then (.error .authenticationRequired, [])
  else
    match create_sell_order walletAddress nowMs nowSec params with
    | .error e => (.error (.raised e), [])
    | .ok o =>
      match sign_order cred o with
      | none => (.error (.raised "ValueError: int() conversion failed"), [])
      | some _sig =>
        let url := "https://msu.io/marketplace/api/marketplace/items/" ++
          params.nft_token_id ++ "/register"
        match net with
        | .ok r => (.ok r, [Effect.networkCall url])
        | .error e => (.error (.raised e), [Effect.networkCall url])

/-- A cached engine instance of `OrderServiceWrapper`, reduced to its
    credential and session state. -/
structure CachedService where
  privateKey : String
  tokens : AuthTokens
  deriving DecidableEq

/-- Embedding of `OrderServiceWrapper._get_or_create_service`: the cache is keyed by the
    first 16 hex characters of the SHA-256 digest of the private key
    (`digest` abstracts `hashlib.sha256(...).hexdigest()`).  On a miss the
    service is constructed, its transport initialized (assumed to succeed;
    no claim concerns it) and `login` awaited — and only then is the
    instance stored, so an exception from `login` propagates before the
    cache insert. -/
def _get_or_create_service (digest : String → String)
    (cache : List (String × CachedService)) (private_key : String)
    (messageNet : Except String String)
    (signinNet : Except String SigninResponse) :
    Except String (CachedService × List (String × CachedService)) :=
  let cache_key : String := ⟨(digest private_key).data.take 16⟩
  match cache.lookup cache_key with
  | some s => .ok (s, cache)
  | none =>
    match login initialAuthTokens messageNet signinNet with
    | .error e => .error e
    | .ok pr =>
      let service : CachedService := { privateKey := private_key, tokens := pr.2 }
      .ok (service, (cache_key, service) :: cache)

/-- State of a `ProxyManager` instance; `loadCount` instruments the number of
    times the source file has actually been parsed. -/
structure ProxyState where
  proxies : List String
  lastModified : Nat
  loadCount : Nat
  deriving DecidableEq

/-- The constructor's state: empty pool, `_last_modified = 0`. -/
def initialProxyState : ProxyState :=
  { proxies := [], lastModified := 0, loadCount := 0 }

/-- One line of the proxy file: strip, drop blanks and `#` comments, prefix
    `http://` when no scheme is given. -/
def parseProxyLine (l : String) : Option String :=
  let t := pyStrip l
  if t.data.isEmpty || pyStartsWith t "#" then none
  else if pyStartsWith t "http://" || pyStartsWith t "https://" then some t
  else some ("http://" ++ t)

/-- Embedding of `ProxyManager._load_proxies`: the file snapshot is `none` when the file
    is missing (print and return `[]`, state untouched); otherwise the file
    is re-parsed only when its modification time differs from the one of the
    last load. -/
def _load_proxies (st : ProxyState) (file : Option (Nat × List String)) :
    List String × ProxyState :=
  match file with
  | none => ([], st)
  | some (mtime, lines) =>
    if mtime ≠ st.lastModified then
      let ps := lines.filterMap parseProxyLine
      (ps, { proxies := ps, lastModified := mtime, loadCount := st.loadCount + 1 })
    else (st.proxies, st)

/-- Embedding of `ProxyManager.get_random_proxy`: `None` on an empty pool, otherwise one
    element chosen by `random.choice` (abstracted by the `pick` index). -/
def get_random_proxy (st : ProxyState) (file : Option (Nat × List String))
    (pick : Nat) : Option String × ProxyState :=
  let ls := _load_proxies st file
  match ls.1 with
  | [] => (none, ls.2)
  | p :: rest =>
    (some ((p :: rest).get ⟨pick % (p :: rest).length,
        Nat.mod_lt pick (Nat.succ_pos rest.length)⟩), ls.2)

/-- A concrete order used by the evaluation witnesses. -/
def sampleOrder : Order :=
  { isSeller := false
    maker := "0xAbCd000000000000000000000000000000000001"
    listingTime := "1700000000"
    expirationTime := "1700259200"
    tokenAddress := TOKEN_ADDRESS
    tokenAmount := "2500000000000000000"
    nftAddress := NFT_ADDRESS
    nftTokenId := "12345"
    salt := "1700000000123"
  }

/-- A concrete credential used by the evaluation witnesses: any deterministic
    stand-in for the abstract signing operation. -/
def sampleCred : Credential :=
  { signTyped := fun _ => "00ff" }

/-- The order `sampleOrder` as a sell order: identical except for `isSeller`. -/
def sampleOrderSell : Order :=
  { sampleOrder with isSeller := true }

/-- A concrete authenticated token state. -/
def sampleTokens : AuthTokens :=
  { wat := some "wat-token", wrt := some "wrt-token",
    watExpireAt := none, wrtExpireAt := none }

/-- The fastest attempt of `sampleAttempts`: it fails (the venue's "purchase
    blocked" body makes the task raise). -/
def fastFailure : RaceAttempt :=
  { terminalTime := 5
    outcome := .error "抢购失败: purchase blocked: the product is not ready for sale yet" }

/-- Five concrete race attempts: the fastest fails at t=5 while a slower
    attempt at t=7 would have succeeded. -/
def sampleAttempts : List RaceAttempt :=
  [fastFailure,
   { terminalTime := 7, outcome := .ok { status := 200, body := "would have succeeded" } },
   { terminalTime := 9, outcome := .ok { status := 200, body := "slow success" } },
   { terminalTime := 11, outcome := .error "请求太频繁" },
   { terminalTime := 13, outcome := .ok { status := 200, body := "slowest" } }]

/-- Concrete parameters with a pre-scaled quantity. -/
def sampleParamsPre : OrderParams :=
  { token_amount := some "42", amount := none, nft_token_id := "777" }

/-- Concrete parameters with a human-readable quantity. -/
def sampleParamsHuman : OrderParams :=
  { token_amount := none, amount := some "2.5", nft_token_id := "777" }

/-- Concrete parameters with a NEGATIVE pre-scaled quantity. -/
def sampleParamsNeg : OrderParams :=
  { token_amount := some "-5", amount := none, nft_token_id := "9" }

/-- A concrete stand-in for `hashlib.sha256(...).hexdigest()`. -/
def sampleDigest : String → String :=
  fun _ => "0123456789abcdef0123"

/-- A concrete proxy-file snapshot: modification time 5, four lines of which
    two are proxy entries. -/
def sampleProxyFile : Option (Nat × List String) :=
  some (5, ["1.2.3.4:8080", "# comment", "", "https://p2.example"])

/-! ### Helper lemmas for the race coordinator -/

/-- Every member of the `done` split equals the unique fastest attempt. -/
theorem raceDone_mem_eq (ts : List RaceAttempt) (a x : RaceAttempt)
    (ha : a ∈ ts)
    (hmin : ∀ b ∈ ts, b ≠ a → a.terminalTime < b.terminalTime)
    (hx : x ∈ (waitFirstCompleted ts).1) : x = a := by
  rcases List.mem_filter.1 hx with ⟨hxts, hxmin⟩
  by_contra hne
  have h1 : a.terminalTime < x.terminalTime := hmin x hxts hne
  have h2 : x.terminalTime ≤ a.terminalTime := by
    have hall := List.all_eq_true.1 hxmin a ha
    simpa using hall
  omega

/-- The unique fastest attempt belongs to the `done` split. -/
theorem raceDone_mem_self (ts : List RaceAttempt) (a : RaceAttempt)
    (ha : a ∈ ts)
    (hmin : ∀ b ∈ ts, b ≠ a → a.terminalTime < b.terminalTime) :
    a ∈ (waitFirstCompleted ts).1 := by
  refine List.mem_filter.2 ⟨ha, ?_⟩
  simp only [isMinIn, List.all_eq_true]
  intro b hb
  rcases eq_or_ne b a with rfl | hne
  · simp
  · simpa using Nat.le_of_lt (hmin b hb hne)

/-- With a unique fastest attempt, the `done` split's head is that attempt. -/
theorem raceDone_head (ts : List RaceAttempt) (a : RaceAttempt)
    (ha : a ∈ ts)
    (hmin : ∀ b ∈ ts, b ≠ a → a.terminalTime < b.terminalTime) :
    ((waitFirstCompleted ts).1).head? = some a := by
  cases hd : (waitFirstCompleted ts).1 with
  | nil =>
    have hmem := raceDone_mem_self ts a ha hmin
    rw [hd] at hmem
    exact absurd hmem (List.not_mem_nil a)
  | cons x l =>
    have hx : x ∈ (waitFirstCompleted ts).1 := by
      rw [hd]; exact List.mem_cons_self x l
    have hxa := raceDone_mem_eq ts a x ha hmin hx
    simp [hxa]

/-! ### The claims -/

/-- C1: for every market-order race, `place_market_order` waits for the first
of the launched attempts to reach any terminal state — success or failure —
cancels every attempt still pending at that instant, and returns (or
re-raises) that first attempt's outcome; in particular a fast failing attempt
ends the race even when a slower attempt would later have succeeded. -/
theorem C1_race_first_terminal_wins (tokens : AuthTokens) (created_at_ts : Int)
    (attempts : List RaceAttempt) (a : RaceAttempt)
    (hauth : is_authenticated tokens = true) (ha : a ∈ attempts)
    (hmin : ∀ b ∈ attempts, b ≠ a → a.terminalTime < b.terminalTime) :
    (place_market_order true tokens created_at_ts attempts).result
        = liftOutcome a.outcome ∧
    (∀ b ∈ attempts, b ≠ a →
        b ∈ (place_market_order true tokens created_at_ts attempts).cancelled) ∧
    a ∉ (place_market_order true tokens created_at_ts attempts).cancelled := by
  have hhead := raceDone_head attempts a ha hmin
  refine ⟨?_, ?_, ?_⟩
  · simp [place_market_order, hauth, hhead]
  · intro b hb hne
    have hlt : a.terminalTime < b.terminalTime := hmin b hb hne
    simp only [place_market_order, hauth, Bool.not_true, Bool.not_false,
      if_false, if_true, waitFirstCompleted]
    refine List.mem_filter.2 ⟨hb, ?_⟩
    cases hallb : isMinIn b attempts with
    | false => simp
    | true =>
      exfalso
      have hble : b.terminalTime ≤ a.terminalTime := by
        have h1 : ∀ x ∈ attempts, b.terminalTime ≤ x.terminalTime := by
          simpa [isMinIn, List.all_eq_true] using hallb
        exact h1 a ha
      omega
  · intro hmem
    have hself := raceDone_mem_self attempts a ha hmin
    have hta : isMinIn a attempts = true := (List.mem_filter.1 hself).2
    simp only [place_market_order, hauth, Bool.not_true, Bool.not_false,
      if_false, if_true, waitFirstCompleted] at hmem
    have hfa := (List.mem_filter.1 hmem).2
    simp [hta] at hfa

/-- C1 witness: five concrete attempts; the fastest (t=5) fails, a slower one
(t=7) would have succeeded, yet the coordinator re-raises the failure and the
other four are cancelled. -/
theorem C1_race_first_terminal_wins_witness :
    ((place_market_order true sampleTokens 1700000000 sampleAttempts).result
        = liftOutcome fastFailure.outcome ∧
      (∀ b ∈ sampleAttempts, b ≠ fastFailure →
        b ∈ (place_market_order true sampleTokens 1700000000 sampleAttempts).cancelled) ∧
      fastFailure ∉
        (place_market_order true sampleTokens 1700000000 sampleAttempts).cancelled) ∧
    liftOutcome fastFailure.outcome =
      .error (.raised "抢购失败: purchase blocked: the product is not ready for sale yet") :=
  ⟨C1_race_first_terminal_wins sampleTokens 1700000000 sampleAttempts fastFailure
      (by decide) (by decide) (by decide),
   rfl⟩

/-- C2: `sign_order` is deterministic — two calls on an identical order with
an identical credential return byte-identical signature strings.  The
statement quantifies over two separate order values that agree field by
field, reflecting two independent calls; the embedding of `sign_order` shows
the result depends on nothing else (no clock, no randomness). -/
theorem C2_sign_order_deterministic (c₁ c₂ : Credential) (o₁ o₂ : Order)
    (hc : c₁ = c₂) (h₁ : o₁.isSeller = o₂.isSeller) (h₂ : o₁.maker = o₂.maker)
    (h₃ : o₁.listingTime = o₂.listingTime)
    (h₄ : o₁.expirationTime = o₂.expirationTime)
    (h₅ : o₁.tokenAddress = o₂.tokenAddress)
    (h₆ : o₁.tokenAmount = o₂.tokenAmount)
    (h₇ : o₁.nftAddress = o₂.nftAddress)
    (h₈ : o₁.nftTokenId = o₂.nftTokenId)
    (h₉ : o₁.salt = o₂.salt) :
    sign_order c₁ o₁ = sign_order c₂ o₂ := by
  cases o₁
  cases o₂
  dsimp only at h₁ h₂ h₃ h₄ h₅ h₆ h₇ h₈ h₉
  subst hc h₁ h₂ h₃ h₄ h₅ h₆ h₇ h₈ h₉
  rfl

/-- C2 witness: the concrete sample order and credential, with the signature
evaluated. -/
theorem C2_sign_order_deterministic_witness :
    sign_order sampleCred sampleOrder = sign_order sampleCred sampleOrder ∧
    sign_order sampleCred sampleOrder = some "0x00ff" :=
  ⟨C2_sign_order_deterministic sampleCred sampleCred sampleOrder sampleOrder
      rfl rfl rfl rfl rfl rfl rfl rfl rfl rfl,
   rfl⟩

/-- C9: the signature produced by `sign_order` is independent of the order's
`isSeller` field — the normalized message always carries `isSeller = 0` — so
two orders identical except for `isSeller` yield identical signatures. -/
theorem C9_signature_independent_of_isSeller (cred : Credential) (o₁ o₂ : Order)
    (h₂ : o₁.maker = o₂.maker)
    (h₃ : o₁.listingTime = o₂.listingTime)
    (h₄ : o₁.expirationTime = o₂.expirationTime)
    (h₅ : o₁.tokenAddress = o₂.tokenAddress)
    (h₆ : o₁.tokenAmount = o₂.tokenAmount)
    (h₇ : o₁.nftAddress = o₂.nftAddress)
    (h₈ : o₁.nftTokenId = o₂.nftTokenId)
    (h₉ : o₁.salt = o₂.salt) :
    sign_order cred o₁ = sign_order cred o₂ := by
  cases o₁
  cases o₂
  dsimp only at h₂ h₃ h₄ h₅ h₆ h₇ h₈ h₉
  subst h₂ h₃ h₄ h₅ h₆ h₇ h₈ h₉
  rfl

/-- C9 witness: the sell variant of the sample order (`isSeller = true`)
signs identically to the buy variant, evaluated concretely. -/
theorem C9_signature_independent_of_isSeller_witness :
    sign_order sampleCred sampleOrderSell = sign_order sampleCred sampleOrder ∧
    sampleOrderSell.isSeller ≠ sampleOrder.isSeller ∧
    sign_order sampleCred sampleOrderSell = some "0x00ff" :=
  ⟨C9_signature_independent_of_isSeller sampleCred sampleOrderSell sampleOrder
      rfl rfl rfl rfl rfl rfl rfl rfl,
   by decide, rfl⟩

/-- C3 counterexample: the claim says every numeric field — including
`tokenAmount` and `nftTokenId` — is parsed to an integer before encoding,
but at this concrete order the code keeps `tokenAmount` as the string
"2500000000000000000" and merely lower-cases `nftTokenId`, so the built
message differs from the claim's normalization. -/
theorem C3_counterexample :
    order_for_signing sampleOrder ≠ order_for_signing_spec sampleOrder ∧
    order_for_signing sampleOrder =
      some [("isSeller", .int 0),
            ("maker", .str "0xabcd000000000000000000000000000000000001"),
            ("listingTime", .int 1700000000),
            ("expirationTime", .int 1700259200),
            ("tokenAddress", .str "0x07e49ad54fcd23f6e7b911c2068f0148d1827c08"),
            ("tokenAmount", .str "2500000000000000000"),
            ("nftAddress", .str "0x43dcff2a0cedcd5e10e6f1c18b503498ddce60d5"),
            ("nftTokenId", .str "12345"),
            ("salt", .int 1700000000123)] ∧
    order_for_signing_spec sampleOrder =
      some [("isSeller", .int 0),
            ("maker", .str "0xabcd000000000000000000000000000000000001"),
            ("listingTime", .int 1700000000),
            ("expirationTime", .int 1700259200),
            ("tokenAddress", .str "0x07e49ad54fcd23f6e7b911c2068f0148d1827c08"),
            ("tokenAmount", .int 2500000000000000000),
            ("nftAddress", .str "0x43dcff2a0cedcd5e10e6f1c18b503498ddce60d5"),
            ("nftTokenId", .int 12345),
            ("salt", .int 1700000000123)] :=
  ⟨by decide, rfl, rfl⟩

/-- C3 (amended): before encoding, `sign_order` lower-cases the three address
fields, parses `listingTime`, `expirationTime` and `salt` to integers, passes
`tokenAmount` through verbatim as a string, lower-cases `nftTokenId`,
replaces `isSeller` by the literal `0`, and encodes exactly the nine Order
fields of the fixed typed-data schema, in schema order. -/
theorem C3_amended_normalization (o : Order) (lt et slt : Int)
    (h₁ : pyInt o.listingTime = some lt)
    (h₂ : pyInt o.expirationTime = some et)
    (h₃ : pyInt o.salt = some slt) :
    order_for_signing o =
      some [("isSeller", .int 0),
            ("maker", .str o.maker.pyLower),
            ("listingTime", .int lt),
            ("expirationTime", .int et),
            ("tokenAddress", .str o.tokenAddress.pyLower),
            ("tokenAmount", .str o.tokenAmount),
            ("nftAddress", .str o.nftAddress.pyLower),
            ("nftTokenId", .str o.nftTokenId.pyLower),
            ("salt", .int slt)] ∧
    (∀ m, order_for_signing o = some m →
      m.map Prod.fst = TYPES_Order.map Prod.fst) := by
  have hmain : order_for_signing o =
      some [("isSeller", .int 0),
            ("maker", .str o.maker.pyLower),
            ("listingTime", .int lt),
            ("expirationTime", .int et),
            ("tokenAddress", .str o.tokenAddress.pyLower),
            ("tokenAmount", .str o.tokenAmount),
            ("nftAddress", .str o.nftAddress.pyLower),
            ("nftTokenId", .str o.nftTokenId.pyLower),
            ("salt", .int slt)] := by
    simp [order_for_signing, h₁, h₂, h₃]
  refine ⟨hmain, ?_⟩
  intro m hm
  rw [hmain] at hm
  injection hm with hm
  subst hm
  rfl

/-- C3 amended witness: the sample order's normalization, with the `int`
parses discharged concretely. -/
theorem C3_amended_normalization_witness :
    pyInt sampleOrder.listingTime = some 1700000000 ∧
    order_for_signing sampleOrder =
      some [("isSeller", .int 0),
            ("maker", .str sampleOrder.maker.pyLower),
            ("listingTime", .int 1700000000),
            ("expirationTime", .int 1700259200),
            ("tokenAddress", .str sampleOrder.tokenAddress.pyLower),
            ("tokenAmount", .str sampleOrder.tokenAmount),
            ("nftAddress", .str sampleOrder.nftAddress.pyLower),
            ("nftTokenId", .str sampleOrder.nftTokenId.pyLower),
            ("salt", .int 1700000000123)] :=
  ⟨by decide,
   (C3_amended_normalization sampleOrder 1700000000 1700259200 1700000000123
      (by decide) (by decide) (by decide)).1⟩

/-- C4 counterexample: the claim says the processed amount equals
`⌊amount * 10 ^ 18⌋` for every human-readable quantity, but for
"1.0000000000000001" the code's binary64 evaluation yields
1000000000000000000 wei while the exact floor is 1000000000000000100 —
`float` cannot carry 17 significant digits. -/
theorem C4_counterexample :
    _process_token_amount "1.0000000000000001" = .ok "1000000000000000000" ∧
    specFloorWei "1.0000000000000001" = some 1000000000000000100 ∧
    ("1000000000000000000" : String) ≠ "1000000000000000100" :=
  ⟨rfl, by decide, by decide⟩

/-- C4 (amended): with a pre-scaled quantity (`token_amount` present) the
resulting `tokenAmount` is the given value verbatim; with a human-readable
quantity it is the binary64 evaluation `int(float(amount) * 10 ** 18)` —
which agrees with `⌊amount * 10 ^ 18⌋` for quantities exactly representable
in 53 bits, such as "2.5" (giving "2500000000000000000"), but not for every
decimal quantity. -/
theorem C4_amended_token_amount (w : String) (nowMs nowSec : Int)
    (p : OrderParams) (isS : Bool) (ed : Int) :
    (∀ ta, p.token_amount = some ta →
        ∃ o, create_order w nowMs nowSec p isS ed = .ok o ∧
          o.tokenAmount = ta) ∧
    (∀ am wei, p.token_amount = none → p.amount = some am →
        _process_token_amount am = .ok wei →
        ∃ o, create_order w nowMs nowSec p isS ed = .ok o ∧
          o.tokenAmount = wei) ∧
    _process_token_amount "2.5" = .ok "2500000000000000000" ∧
    specFloorWei "2.5" = some 2500000000000000000 := by
  refine ⟨?_, ?_, rfl, by decide⟩
  · intro ta hta
    refine ⟨{ isSeller := isS, maker := w, listingTime := toString nowSec,
              expirationTime := toString (nowSec + ed * 86400),
              tokenAddress := TOKEN_ADDRESS, tokenAmount := ta,
              nftAddress := NFT_ADDRESS, nftTokenId := p.nft_token_id,
              salt := toString nowMs }, ?_, rfl⟩
    simp [create_order, hta, get_timestamp]
  · intro am wei h₁ h₂ h₃
    refine ⟨{ isSeller := isS, maker := w, listingTime := toString nowSec,
              expirationTime := toString (nowSec + ed * 86400),
              tokenAddress := TOKEN_ADDRESS, tokenAmount := wei,
              nftAddress := NFT_ADDRESS, nftTokenId := p.nft_token_id,
              salt := toString nowMs }, ?_, rfl⟩
    simp [create_order, h₁, h₂, h₃, get_timestamp]

/-- C4 amended witness: the human quantity "2.5" built into a full order,
with every hypothesis discharged concretely. -/
theorem C4_amended_token_amount_witness :
    (create_order "0xW" 1700000000123 1700000000 sampleParamsHuman false 3).isOk
        = true ∧
    create_order "0xW" 1700000000123 1700000000 sampleParamsHuman false 3 =
      .ok { isSeller := false, maker := "0xW", listingTime := "1700000000",
            expirationTime := "1700259200", tokenAddress := TOKEN_ADDRESS,
            tokenAmount := "2500000000000000000", nftAddress := NFT_ADDRESS,
            nftTokenId := "777", salt := "1700000000123" } := by
  constructor
  · obtain ⟨o, ho, -⟩ :=
      (C4_amended_token_amount "0xW" 1700000000123 1700000000
        sampleParamsHuman false 3).2.1 "2.5" "2500000000000000000" rfl rfl rfl
    rw [ho]
    rfl
  · rfl

/-- C10: `create_order` raises a value error only on the human-quantity path
or when neither quantity key is present; whenever `token_amount` is present
its (stringified) value is accepted verbatim with no validation, so negative
or over-ceiling pre-scaled quantities never raise — the negativity and
ceiling guards live exclusively on the `amount` path. -/
theorem C10_no_validation_on_prescaled_path (w : String) (nowMs nowSec : Int)
    (p : OrderParams) (isS : Bool) (ed : Int) :
    (∀ ta, p.token_amount = some ta →
        create_order w nowMs nowSec p isS ed =
          .ok { isSeller := isS, maker := w, listingTime := toString nowSec,
                expirationTime := toString (nowSec + ed * 86400),
                tokenAddress := TOKEN_ADDRESS, tokenAmount := ta,
                nftAddress := NFT_ADDRESS, nftTokenId := p.nft_token_id,
                salt := toString nowMs }) ∧
    (p.token_amount = none → p.amount = none →
        create_order w nowMs nowSec p isS ed =
          .error "必须提供 amount 或 token_amount 参数") ∧
    (∀ am e, p.token_amount = none → p.amount = some am →
        _process_token_amount am = .error e →
        create_order w nowMs nowSec p isS ed = .error e) ∧
    (∀ e, create_order w nowMs nowSec p isS ed = .error e →
        p.token_amount = none) := by
  refine ⟨?_, ?_, ?_, ?_⟩
  · intro ta hta
    simp [create_order, hta, get_timestamp]
  · intro h₁ h₂
    simp [create_order, h₁, h₂]
  · intro am e h₁ h₂ h₃
    simp [create_order, h₁, h₂, h₃]
  · intro e he
    cases hta : p.token_amount with
    | none => rfl
    | some ta =>
      exfalso
      rw [show create_order w nowMs nowSec p isS ed =
          .ok { isSeller := isS, maker := w, listingTime := toString nowSec,
                expirationTime := toString (nowSec + ed * 86400),
                tokenAddress := TOKEN_ADDRESS, tokenAmount := ta,
                nftAddress := NFT_ADDRESS, nftTokenId := p.nft_token_id,
                salt := toString nowMs }
        from by simp [create_order, hta, get_timestamp]] at he
      exact Except.noConfusion he

/-- C10 witness: the negative pre-scaled quantity "-5" is accepted verbatim,
while the same value on the human path would be rejected. -/
theorem C10_no_validation_on_prescaled_path_witness :
    create_order "0xW" 1 2 sampleParamsNeg false 3 =
      .ok { isSeller := false, maker := "0xW", listingTime := toString (2 : Int),
            expirationTime := toString ((2 : Int) + 3 * 86400),
            tokenAddress := TOKEN_ADDRESS, tokenAmount := "-5",
            nftAddress := NFT_ADDRESS, nftTokenId := "9",
            salt := toString (1 : Int) } ∧
    _process_token_amount "-5" = .error "代币数量不能为负数" :=
  ⟨(C10_no_validation_on_prescaled_path "0xW" 1 2 sampleParamsNeg false 3).1
      "-5" rfl,
   rfl⟩

/-- C5: each of `place_market_order`, `place_limit_order` and
`place_sell_order` raises the security-check error when the confirmation
flag is false, and otherwise raises the authentication-required error when
`is_authenticated` is false; in both cases the effect trace is empty — no
network call is performed and, for `place_market_order`, no cooldown wait
happens (the checks precede the timing wait). -/
theorem C5_fail_fast_guards (tokens : AuthTokens) (created_at_ts : Int)
    (attempts : List RaceAttempt) (cred : Credential) (w : String)
    (nowMs nowSec : Int) (p : OrderParams) (net : Except String Response) :
    (place_market_order false tokens created_at_ts attempts =
      { result := .error .securityCheckFailed, trace := [], cancelled := [] }) ∧
    (is_authenticated tokens = false →
      place_market_order true tokens created_at_ts attempts =
        { result := .error .authenticationRequired, trace := [], cancelled := [] }) ∧
    (place_limit_order false tokens cred w nowMs nowSec p net =
      (.error .securityCheckFailed, [])) ∧
    (is_authenticated tokens = false →
      place_limit_order true tokens cred w nowMs nowSec p net =
        (.error .authenticationRequired, [])) ∧
    (place_sell_order false tokens cred w nowMs nowSec p net =
      (.error .securityCheckFailed, [])) ∧
    (is_authenticated tokens = false →
      place_sell_order true tokens cred w nowMs nowSec p net =
        (.error .authenticationRequired, [])) := by
  refine ⟨rfl, ?_, rfl, ?_, rfl, ?_⟩
  · intro h
    simp [place_market_order, h]
  · intro h
    simp [place_limit_order, h]
  · intro h
    simp [place_sell_order, h]

/-- C5 witness: concrete unconfirmed and unauthenticated calls of all three
entry points, with the hypotheses discharged concretely. -/
theorem C5_fail_fast_guards_witness :
    place_market_order false sampleTokens 1700000000 sampleAttempts =
      { result := .error .securityCheckFailed, trace := [], cancelled := [] } ∧
    place_market_order true initialAuthTokens 1700000000 sampleAttempts =
      { result := .error .authenticationRequired, trace := [], cancelled := [] } ∧
    place_limit_order true initialAuthTokens sampleCred "0xW" 1 2 sampleParamsPre
        (.ok { status := 200, body := "ok" }) =
      (.error .authenticationRequired, []) ∧
    place_sell_order true initialAuthTokens sampleCred "0xW" 1 2 sampleParamsPre
        (.ok { status := 200, body := "ok" }) =
      (.error .authenticationRequired, []) :=
  ⟨(C5_fail_fast_guards sampleTokens 1700000000 sampleAttempts sampleCred "0xW"
      1 2 sampleParamsPre (.ok { status := 200, body := "ok" })).1,
   (C5_fail_fast_guards initialAuthTokens 1700000000 sampleAttempts sampleCred
      "0xW" 1 2 sampleParamsPre (.ok { status := 200, body := "ok" })).2.1 rfl,
   (C5_fail_fast_guards initialAuthTokens 1700000000 sampleAttempts sampleCred
      "0xW" 1 2 sampleParamsPre (.ok { status := 200, body := "ok" })).2.2.2.1 rfl,
   (C5_fail_fast_guards initialAuthTokens 1700000000 sampleAttempts sampleCred
      "0xW" 1 2 sampleParamsPre
      (.ok { status := 200, body := "ok" })).2.2.2.2.2 rfl⟩

/-- C6 counterexample: a signin response whose body cannot be parsed makes
`login` return normally (the inner `try/except` swallows the parse failure
and the raw response is returned with the tokens unchanged) — the claim says
`login` raises in this situation. -/
theorem C6_counterexample :
    login initialAuthTokens (.ok "challenge") (.ok { parse := .fails }) =
      .ok ({ parse := .fails }, initialAuthTokens) ∧
    (login initialAuthTokens (.ok "challenge") (.ok { parse := .fails })).isOk
      = true :=
  ⟨rfl, rfl⟩

/-- C6 (amended): network failures during `login` — in the challenge fetch or
in the signin POST — are re-raised to the caller; but parse failures and
responses lacking a truthy token pair are swallowed: `login` returns the raw
response normally and leaves the stored tokens unchanged.  A truthy pair is
persisted. -/
theorem C6_amended_login_failures (st : AuthTokens) (msg : String)
    (r : SigninResponse) (e : String) :
    (login st (.error e) (.ok r) = .error e) ∧
    (login st (.ok msg) (.error e) = .error e) ∧
    (r.parse = .fails → login st (.ok msg) (.ok r) = .ok (r, st)) ∧
    (∀ wat wrt we re, r.parse = .fields wat wrt we re →
      ((pyTruthyStr wat && pyTruthyStr wrt) = false →
        login st (.ok msg) (.ok r) = .ok (r, st)) ∧
      ((pyTruthyStr wat && pyTruthyStr wrt) = true →
        login st (.ok msg) (.ok r) =
          .ok (r, { wat := wat, wrt := wrt,
                    watExpireAt := we, wrtExpireAt := re }))) := by
  refine ⟨rfl, rfl, ?_, ?_⟩
  · intro h
    simp [login, h]
  · intro wat wrt we re h
    constructor <;> intro hb <;> simp [login, h, hb]

/-- C6 amended witness: a concrete network failure is re-raised, and a
concrete response carrying only `wat` (no `wrt`) is returned normally with
the tokens unchanged. -/
theorem C6_amended_login_failures_witness :
    login initialAuthTokens (.error "ConnectionError") (.ok { parse := .fails }) =
      .error "ConnectionError" ∧
    login initialAuthTokens (.ok "challenge")
        (.ok { parse := .fields (some "w") none none none }) =
      .ok ({ parse := .fields (some "w") none none none }, initialAuthTokens) :=
  ⟨(C6_amended_login_failures initialAuthTokens "challenge"
      { parse := .fails } "ConnectionError").1,
   ((C6_amended_login_failures initialAuthTokens "challenge"
      { parse := .fields (some "w") none none none } "x").2.2.2
      (some "w") none none none rfl).1 rfl⟩

/-- C7 counterexample: a login attempt that raises (here a network failure in
the challenge fetch) propagates out of `_get_or_create_service` before the
cache insert — no instance is created or cached — refuting the claim that a
login failure never prevents creation and caching. -/
theorem C7_counterexample :
    _get_or_create_service sampleDigest [] "0x11" (.error "ConnectionError")
        (.ok { parse := .fails }) = .error "ConnectionError" :=
  rfl

/-- C7 (amended): on a cache miss, `_get_or_create_service` keys the new
instance by the (truncated) one-way digest of the credential; a login attempt
that completes without raising but yields no tokens (e.g. a parse failure)
does not prevent creation and caching — the instance is cached
unauthenticated — while a login that raises propagates and nothing is
cached. -/
theorem C7_amended_registry_caching (digest : String → String)
    (cache : List (String × CachedService)) (pk msg : String)
    (r : SigninResponse) (e : String)
    (hmiss : cache.lookup (⟨(digest pk).data.take 16⟩ : String) = none) :
    (r.parse = .fails →
      _get_or_create_service digest cache pk (.ok msg) (.ok r) =
        .ok ({ privateKey := pk, tokens := initialAuthTokens },
          ((⟨(digest pk).data.take 16⟩ : String),
            ({ privateKey := pk, tokens := initialAuthTokens } : CachedService))
            :: cache) ∧
      is_authenticated initialAuthTokens = false) ∧
    (_get_or_create_service digest cache pk (.error e) (.ok r) = .error e) := by
  constructor
  · intro h
    refine ⟨?_, rfl⟩
    simp [_get_or_create_service, hmiss, login, h]
  · simp [_get_or_create_service, hmiss, login]

/-- C7 amended witness: a concrete soft-failing login (unparseable body)
still results in a cached, unauthenticated instance under the digest key. -/
theorem C7_amended_registry_caching_witness :
    _get_or_create_service sampleDigest [] "0x22" (.ok "challenge")
        (.ok { parse := .fails }) =
      .ok ({ privateKey := "0x22", tokens := initialAuthTokens },
        [("0123456789abcdef",
          ({ privateKey := "0x22", tokens := initialAuthTokens } : CachedService))]) :=
  ((C7_amended_registry_caching sampleDigest [] "0x22" "challenge"
      { parse := .fails } "e" rfl).1 rfl).1

/-- Helper: `get_random_proxy` never changes state beyond what
`_load_proxies` does. -/
theorem get_random_proxy_state (st : ProxyState)
    (file : Option (Nat × List String)) (pick : Nat) :
    (get_random_proxy st file pick).2 = (_load_proxies st file).2 := by
  simp only [get_random_proxy]
  cases (_load_proxies st file).1 <;> rfl

/-- C8: `get_random_proxy` returns none when the source file is missing or
the loaded pool is empty, and otherwise an element of the loaded list; the
file is re-parsed only when its modification time differs from the last
load's, so two consecutive reads of an unmodified source perform exactly one
load. -/
theorem C8_proxy_pool (st : ProxyState) (file : Option (Nat × List String))
    (mtime : Nat) (lines : List String) (pick pick₂ : Nat) :
    ((get_random_proxy st none pick).1 = none) ∧
    ((_load_proxies st file).1 = [] → (get_random_proxy st file pick).1 = none) ∧
    (∀ p, (get_random_proxy st file pick).1 = some p →
        p ∈ (_load_proxies st file).1) ∧
    (mtime ≠ st.lastModified →
      (get_random_proxy st (some (mtime, lines)) pick).2.loadCount
          = st.loadCount + 1 ∧
      (get_random_proxy (get_random_proxy st (some (mtime, lines)) pick).2
          (some (mtime, lines)) pick₂).2.loadCount = st.loadCount + 1) := by
  refine ⟨rfl, ?_, ?_, ?_⟩
  · intro h
    simp [get_random_proxy, h]
  · intro p hp
    cases hl : (_load_proxies st file).1 with
    | nil => simp [get_random_proxy, hl] at hp
    | cons q rest =>
      simp only [get_random_proxy, hl] at hp
      injection hp with hp
      exact hp ▸ List.get_mem _ _ _
  · intro hne
    simp only [get_random_proxy_state]
    constructor
    · simp [_load_proxies, hne]
    · simp [_load_proxies, hne]

/-- C8 witness: a concrete four-line file (two entries after filtering); the
first element is returned and a second read with the same modification time
performs no further load. -/
theorem C8_proxy_pool_witness :
    "http://1.2.3.4:8080" ∈ (_load_proxies initialProxyState sampleProxyFile).1 ∧
    (get_random_proxy initialProxyState sampleProxyFile 0).2.loadCount = 1 ∧
    (get_random_proxy (get_random_proxy initialProxyState sampleProxyFile 0).2
        sampleProxyFile 3).2.loadCount = 1 :=
  ⟨(C8_proxy_pool initialProxyState sampleProxyFile 5
      ["1.2.3.4:8080", "# comment", "", "https://p2.example"] 0 3).2.2.1
      "http://1.2.3.4:8080" rfl,
   ((C8_proxy_pool initialProxyState sampleProxyFile 5
      ["1.2.3.4:8080", "# comment", "", "https://p2.example"] 0 3).2.2.2
      (by decide)).1,
   ((C8_proxy_pool initialProxyState sampleProxyFile 5
      ["1.2.3.4:8080", "# comment", "", "https://p2.example"] 0 3).2.2.2
      (by decide)).2⟩
